import Mathlib

/-!
Shallow embedding of the Tauri application shell in
`src-tauri/src/lib.rs` of the habit-tracker repository.

The shell wires a system tray (menu items `open`, `add_habit`, `quit`),
a tray-icon click handler, and a window-event guard converting close
requests into hide operations unless the shared `quitting` flag is set.

Handlers are embedded as pure functions from the relevant state to a
trace of primitive effects (in program order); a separate interpreter
applies the traces to the shell state, and the runtime rule that an
unprevented close request destroys the window is modelled explicitly.
-/

namespace HabitTracker

/-- Visibility of a live webview window. -/
inductive WindowVisibility where
  | Visible
  | Hidden
deriving DecidableEq, Repr

/-- `struct AppState { quitting: AtomicBool }` from the source. -/
structure AppState where
  quitting : Bool
deriving DecidableEq, Repr

/-- The shell state visible to the callbacks: the managed `AppState`,
the webview window registered under the label `"main"` (`none` when no
such window exists; destruction removes it), and the exit code once
`app.exit` has been called. -/
structure ShellState where
  state : AppState
  main : Option WindowVisibility
  exited : Option Nat
deriving DecidableEq, Repr

/-- Rust `std::sync::atomic::Ordering`. -/
inductive AtomicOrdering where
  | Relaxed
  | Acquire
  | Release
  | AcqRel
  | SeqCst
deriving DecidableEq, Repr

/-- Primitive effects performed by the callbacks, recorded in program
order: `w.show()`, `w.set_focus()`, `w.emit(name, ())` (unit payload),
`state.quitting.store(ord, v)`, `api.prevent_close()`, `w.hide()`,
`app.exit(code)`. -/
inductive Action where
  | showWindow
  | setFocus
  | emit (name : String)
  | storeQuitting (ord : AtomicOrdering) (value : Bool)
  | preventClose
  | hideWindow
  | exit (code : Nat)
deriving DecidableEq, BEq, Repr

/-- Mouse button of a tray-icon click. -/
inductive MouseButton where
  | Left
  | Right
  | Middle
deriving DecidableEq, Repr

/-- Pressed/released state of a tray-icon click. -/
inductive MouseButtonState where
  | Up
  | Down
deriving DecidableEq, Repr

/-- `tauri::tray::TrayIconEvent` variants. -/
inductive TrayIconEvent where
  | Click (button : MouseButton) (buttonState : MouseButtonState)
  | DoubleClick (button : MouseButton)
  | Enter
  | Move
  | Leave
deriving DecidableEq, Repr

/-- Whether a tray-icon event is a click interaction (any button or
button state). -/
def TrayIconEvent.isClick : TrayIconEvent → Bool
  | TrayIconEvent.Click _ _ => true
  | _ => false

/-- `tauri::WindowEvent` variants relevant to the guard (the guard
matches only `CloseRequested`; every other variant falls through). -/
inductive WindowEvent where
  | CloseRequested
  | Focused (focused : Bool)
  | Moved
  | Resized
  | ThemeChanged
  | DestroyedEvent
deriving DecidableEq, Repr

/-- `app.get_webview_window(label)`: the shell only ever registers one
window, under the fixed label `"main"`. -/
def get_webview_window (s : ShellState) (label : String) :
    Option WindowVisibility :=
  if label = "main" then s.main else none

/-- The `on_menu_event` closure: dispatch on the menu item id.
`open` shows and focuses the main window if it exists; `add_habit`
additionally emits `tray:add-habit`; `quit` stores `true` into the
`quitting` flag with `Ordering::SeqCst` and then calls `app.exit(0)`;
any other id does nothing. -/
def on_menu_event (s : ShellState) (id : String) : List Action :=
  if id = "open" then
    match get_webview_window s "main" with
    | some _ => [Action.showWindow, Action.setFocus]
    | none => []
  else if id = "add_habit" then
    match get_webview_window s "main" with
    | some _ =>
        [Action.showWindow, Action.setFocus, Action.emit "tray:add-habit"]
    | none => []
  else if id = "quit" then
    [Action.storeQuitting AtomicOrdering.SeqCst true, Action.exit 0]
  else []

/-- The `on_tray_icon_event` closure: on `TrayIconEvent::Click { .. }`
(any button, any button state), show and focus the main window if it
exists; every other event kind does nothing. -/
def on_tray_icon_event (s : ShellState) (event : TrayIconEvent) :
    List Action :=
  match event with
  | TrayIconEvent.Click _ _ =>
      match get_webview_window s "main" with
      | some _ => [Action.showWindow, Action.setFocus]
      | none => []
  | _ => []

/-- The `on_window_event` closure: on `CloseRequested`, read the
`quitting` flag; if it is false, call `api.prevent_close()` and hide the
window; otherwise do nothing. No other window event is handled. -/
def on_window_event (quitting : Bool) (event : WindowEvent) :
    List Action :=
  match event with
  | WindowEvent.CloseRequested =>
      if !quitting then [Action.preventClose, Action.hideWindow] else []
  | _ => []

/-- Effect of one primitive action on the shell state. -/
def applyAction (s : ShellState) : Action → ShellState
  | Action.storeQuitting _ v => { s with state := { quitting := v } }
  | Action.showWindow =>
      { s with main := s.main.map fun _ => WindowVisibility.Visible }
  | Action.hideWindow =>
      { s with main := s.main.map fun _ => WindowVisibility.Hidden }
  | Action.exit code => { s with exited := some code }
  | Action.setFocus => s
  | Action.emit _ => s
  | Action.preventClose => s

/-- Run a trace of actions, left to right. -/
def runTrace (s : ShellState) (tr : List Action) : ShellState :=
  tr.foldl applyAction s

/-- Runtime semantics of one window event: run the guard's trace, and,
for a close request whose default action was not prevented, destroy the
window (remove it from the registry). -/
def processWindowEvent (s : ShellState) (event : WindowEvent) :
    ShellState :=
  let tr := on_window_event s.state.quitting event
  let s' := runTrace s tr
  match event with
  | WindowEvent.CloseRequested =>
      if tr.contains Action.preventClose then s' else { s' with main := none }
  | _ => s'

/-- The three event sources the shell registers callbacks for. -/
inductive ShellEvent where
  | menu (id : String)
  | tray (event : TrayIconEvent)
  | window (event : WindowEvent)
deriving DecidableEq, Repr

/-- Dispatch one event through the corresponding callback and apply its
effects to the shell state. -/
def handleEvent (s : ShellState) : ShellEvent → ShellState
  | ShellEvent.menu id => runTrace s (on_menu_event s id)
  | ShellEvent.tray e => runTrace s (on_tray_icon_event s e)
  | ShellEvent.window e => processWindowEvent s e

/-- `.manage(AppState { quitting: AtomicBool::new(false) })`: the state
installed at bootstrap. -/
def initialAppState : AppState := { quitting := false }

/-- Iterate `n` close requests on the main window. -/
def closeRequests (s : ShellState) : Nat → ShellState
  | 0 => s
  | n + 1 => closeRequests (processWindowEvent s WindowEvent.CloseRequested) n

/-- A window icon (opaque pixel data). -/
structure Icon where
  bytes : List Nat
deriving DecidableEq, Repr

/-- The tray icon built by `TrayIconBuilder::with_id("habitflow-tray")`
with the three-item menu. -/
structure TrayIcon where
  trayId : String
  icon : Icon
  menuIds : List String
deriving DecidableEq, Repr

/-- Menu item ids, in display order. -/
def trayMenuIds : List String := ["open", "add_habit", "quit"]

/-- The setup callback: builds the menu, then requires
`app.default_window_icon().ok_or("missing default window icon")?`
before the tray can be built; with no default icon it returns the error
and the tray is never constructed. -/
def setup (defaultWindowIcon : Option Icon) : Except String TrayIcon :=
  match defaultWindowIcon with
  | none => Except.error "missing default window icon"
  | some ic =>
      Except.ok { trayId := "habitflow-tray", icon := ic, menuIds := trayMenuIds }

/-- Outcome of bootstrap: either the event loop runs with the tray
built, or startup aborted with an error message. -/
inductive BootResult where
  | running (tray : TrayIcon)
  | aborted (msg : String)
deriving DecidableEq, Repr

/-- Whether bootstrap reached the running state. -/
def BootResult.isRunning : BootResult → Bool
  | BootResult.running _ => true
  | BootResult.aborted _ => false

/-- Bootstrap: a setup error is propagated by the builder and aborts
startup before the event loop runs. -/
def bootstrap (defaultWindowIcon : Option Icon) : BootResult :=
  match setup defaultWindowIcon with
  | Except.ok t => BootResult.running t
  | Except.error m => BootResult.aborted m

/-- A concrete state with the main window visible and `quitting` false. -/
def sampleVisible : ShellState :=
  { state := initialAppState, main := some WindowVisibility.Visible,
    exited := none }

/-- A concrete state whose `quitting` flag is already true. -/
def sampleQuitting : ShellState :=
  { state := { quitting := true }, main := some WindowVisibility.Visible,
    exited := none }

/-- A concrete state with no window registered under `"main"`. -/
def sampleNoWindow : ShellState :=
  { state := initialAppState, main := none, exited := none }

/-! ## Helper lemmas -/

/-- With `quitting` false, one close request only hides the main window. -/
theorem close_step_not_quitting (s : ShellState)
    (h : s.state.quitting = false) :
    processWindowEvent s WindowEvent.CloseRequested
      = { s with main := s.main.map fun _ => WindowVisibility.Hidden } := by
  unfold processWindowEvent on_window_event
  rw [h]
  rfl

/-- With `quitting` true, a close request is not prevented and the
default close destroys the main window. -/
theorem close_step_quitting (s : ShellState)
    (h : s.state.quitting = true) :
    processWindowEvent s WindowEvent.CloseRequested
      = { s with main := none } := by
  unfold processWindowEvent on_window_event
  rw [h]
  rfl

/-- Unfolding one close request. -/
theorem closeRequests_succ (s : ShellState) (n : Nat) :
    closeRequests s (n + 1)
      = closeRequests (processWindowEvent s WindowEvent.CloseRequested) n :=
  rfl

/-- Menu dispatch on any id other than `quit` leaves the flag unchanged. -/
theorem menu_quitting_eq (s : ShellState) (id : String) (h : id ≠ "quit") :
    (runTrace s (on_menu_event s id)).state.quitting = s.state.quitting := by
  unfold on_menu_event
  by_cases h1 : id = "open"
  · simp only [h1, if_true, get_webview_window, if_pos rfl]
    cases s.main <;> simp [runTrace, applyAction, List.foldl]
  · by_cases h2 : id = "add_habit"
    · simp only [h1, if_false, h2, if_true, get_webview_window, if_pos rfl]
      cases s.main <;> simp [runTrace, applyAction, List.foldl]
    · simp [h1, h2, h, runTrace, applyAction, List.foldl]

/-- Tray-icon dispatch leaves the flag unchanged. -/
theorem tray_quitting_eq (s : ShellState) (e : TrayIconEvent) :
    (runTrace s (on_tray_icon_event s e)).state.quitting
      = s.state.quitting := by
  cases e with
  | Click b bs =>
      unfold on_tray_icon_event
      simp only [get_webview_window, if_pos rfl]
      cases s.main <;> simp [runTrace, applyAction, List.foldl]
  | DoubleClick b => rfl
  | Enter => rfl
  | Move => rfl
  | Leave => rfl

/-- Window-event dispatch leaves the flag unchanged. -/
theorem window_quitting_eq (s : ShellState) (e : WindowEvent) :
    (processWindowEvent s e).state.quitting = s.state.quitting := by
  cases e with
  | CloseRequested =>
      cases hq : s.state.quitting
      · rw [close_step_not_quitting s hq]
        exact hq
      · rw [close_step_quitting s hq]
        exact hq
  | Focused b => rfl
  | Moved => rfl
  | Resized => rfl
  | ThemeChanged => rfl
  | DestroyedEvent => rfl

/-- Iterating close requests under a false flag keeps the flag false and
maps the window (if any) to Hidden after the first request. -/
theorem closeRequests_false_aux (n : Nat) : ∀ s : ShellState,
    s.state.quitting = false →
    (closeRequests s (n + 1)).state.quitting = false ∧
    (closeRequests s (n + 1)).main
      = s.main.map fun _ => WindowVisibility.Hidden := by
  induction n with
  | zero =>
      intro s h
      rw [closeRequests_succ, close_step_not_quitting s h]
      exact ⟨h, rfl⟩
  | succ n ih =>
      intro s h
      rw [closeRequests_succ, close_step_not_quitting s h]
      obtain ⟨h1, h2⟩ :=
        ih { s with main := s.main.map fun _ => WindowVisibility.Hidden } h
      refine ⟨h1, ?_⟩
      rw [h2]
      cases s.main <;> rfl

/-! ## Claim theorems -/

/-- Claim C1: for every window close request processed while the shared
`quitting` flag is false, the guard suppresses the default close action
(calls `prevent_close`) and hides the window instead; under this
precondition no sequence of close requests ever destroys the window —
it always ends Hidden. -/
theorem close_requests_never_destroy (s : ShellState) (n : Nat)
    (h : s.state.quitting = false) (hm : s.main.isSome = true) :
    on_window_event s.state.quitting WindowEvent.CloseRequested
      = [Action.preventClose, Action.hideWindow] ∧
    (closeRequests s n).main.isSome = true ∧
    (closeRequests s (n + 1)).main = some WindowVisibility.Hidden := by
  obtain ⟨v, hv⟩ := Option.isSome_iff_exists.mp hm
  refine ⟨by simp only [h]; rfl, ?_, ?_⟩
  · cases n with
    | zero => exact hm
    | succ m =>
        rw [(closeRequests_false_aux m s h).2, hv]
        rfl
  · rw [(closeRequests_false_aux n s h).2, hv]
    rfl

/-- Witness for C1 at a concrete visible, non-quitting state. -/
theorem close_requests_never_destroy_witness :
    sampleVisible.state.quitting = false ∧
    sampleVisible.main.isSome = true ∧
    (on_window_event sampleVisible.state.quitting WindowEvent.CloseRequested
        = [Action.preventClose, Action.hideWindow] ∧
      (closeRequests sampleVisible 2).main.isSome = true ∧
      (closeRequests sampleVisible 3).main = some WindowVisibility.Hidden) :=
  ⟨rfl, rfl, close_requests_never_destroy sampleVisible 2 rfl rfl⟩

/-- Claim C2: selecting the `quit` menu item first stores true into the
shared `quitting` flag with sequentially consistent ordering and then
terminates the process with exit code 0, in that order. -/
theorem quit_stores_flag_then_exits_zero (s : ShellState) :
    on_menu_event s "quit"
      = [Action.storeQuitting AtomicOrdering.SeqCst true, Action.exit 0] ∧
    (handleEvent s (ShellEvent.menu "quit")).state.quitting = true ∧
    (handleEvent s (ShellEvent.menu "quit")).exited = some 0 :=
  ⟨rfl, rfl, rfl⟩

/-- Claim C3: the shared `quitting` flag is created at bootstrap with
value false, and once it is true no menu, tray-icon, or window event
handler ever resets it to false. -/
theorem quitting_initial_false_and_monotone (s : ShellState)
    (e : ShellEvent) (h : s.state.quitting = true) :
    initialAppState.quitting = false ∧
    (handleEvent s e).state.quitting = true := by
  refine ⟨rfl, ?_⟩
  cases e with
  | menu id =>
      by_cases hq : id = "quit"
      · subst hq
        rfl
      · exact (menu_quitting_eq s id hq).trans h
  | tray te => exact (tray_quitting_eq s te).trans h
  | window we => exact (window_quitting_eq s we).trans h

/-- Witness for C3 at a concrete state whose flag is already true. -/
theorem quitting_initial_false_and_monotone_witness :
    sampleQuitting.state.quitting = true ∧
    (initialAppState.quitting = false ∧
      (handleEvent sampleQuitting
          (ShellEvent.tray TrayIconEvent.Enter)).state.quitting = true) :=
  ⟨rfl, quitting_initial_false_and_monotone sampleQuitting
    (ShellEvent.tray TrayIconEvent.Enter) rfl⟩

/-- Claim C4: for every dispatch of the `add_habit` menu event in which
the main window exists, the handler performs show, then focus, then
emits exactly one `tray:add-habit` event — show and focus always
precede the emission. -/
theorem add_habit_show_focus_then_emit_once (s : ShellState)
    (hm : s.main.isSome = true) :
    on_menu_event s "add_habit"
      = [Action.showWindow, Action.setFocus, Action.emit "tray:add-habit"] ∧
    (on_menu_event s "add_habit").count (Action.emit "tray:add-habit")
      = 1 := by
  obtain ⟨st, mo, ex⟩ := s
  obtain ⟨v, hv⟩ := Option.isSome_iff_exists.mp hm
  cases hv
  exact ⟨rfl, rfl⟩

/-- Witness for C4 at a concrete state with a visible main window. -/
theorem add_habit_show_focus_then_emit_once_witness :
    sampleVisible.main.isSome = true ∧
    (on_menu_event sampleVisible "add_habit"
        = [Action.showWindow, Action.setFocus,
            Action.emit "tray:add-habit"] ∧
      (on_menu_event sampleVisible "add_habit").count
          (Action.emit "tray:add-habit") = 1) :=
  ⟨rfl, add_habit_show_focus_then_emit_once sampleVisible rfl⟩

/-- Claim C5: dispatching `open` or `add_habit` when no window is
registered under `"main"` returns normally, performs no show/focus,
emits no event, and leaves all state unchanged. -/
theorem menu_no_main_window_noop (s : ShellState) (h : s.main = none) :
    on_menu_event s "open" = [] ∧
    on_menu_event s "add_habit" = [] ∧
    handleEvent s (ShellEvent.menu "open") = s ∧
    handleEvent s (ShellEvent.menu "add_habit") = s := by
  obtain ⟨st, mo, ex⟩ := s
  cases h
  exact ⟨rfl, rfl, rfl, rfl⟩

/-- Witness for C5 at a concrete state with no main window. -/
theorem menu_no_main_window_noop_witness :
    sampleNoWindow.main = none ∧
    (on_menu_event sampleNoWindow "open" = [] ∧
      on_menu_event sampleNoWindow "add_habit" = [] ∧
      handleEvent sampleNoWindow (ShellEvent.menu "open")
        = sampleNoWindow ∧
      handleEvent sampleNoWindow (ShellEvent.menu "add_habit")
        = sampleNoWindow) :=
  ⟨rfl, menu_no_main_window_noop sampleNoWindow rfl⟩

/-- Claim C6: if the platform default window icon is unavailable at
setup time, setup returns an error with a descriptive message, startup
aborts before the tray is constructed, and the running state is never
reached. -/
theorem setup_missing_icon_aborts :
    setup none = Except.error "missing default window icon" ∧
    (bootstrap none).isRunning = false :=
  ⟨rfl, rfl⟩

/-- Claim C7: a tray-icon click of any button or button state shows and
focuses the main window when it exists; every other tray-icon event
kind does nothing, in every state (main window present or not). -/
theorem tray_click_shows_focuses_other_ignored (s t : ShellState)
    (b : MouseButton) (bs : MouseButtonState) (e : TrayIconEvent)
    (hm : s.main.isSome = true) (he : e.isClick = false) :
    on_tray_icon_event s (TrayIconEvent.Click b bs)
      = [Action.showWindow, Action.setFocus] ∧
    on_tray_icon_event t e = [] ∧
    handleEvent t (ShellEvent.tray e) = t := by
  constructor
  · obtain ⟨st, mo, ex⟩ := s
    obtain ⟨v, hv⟩ := Option.isSome_iff_exists.mp hm
    cases hv
    rfl
  · have htr : on_tray_icon_event t e = [] := by
      cases e with
      | Click b2 bs2 => cases he
      | DoubleClick b2 => rfl
      | Enter => rfl
      | Move => rfl
      | Leave => rfl
    exact ⟨htr, by simp only [handleEvent, htr, runTrace, List.foldl_nil]⟩

/-- Witness for C7 with a left-button click at a state with a main
window, and an `Enter` event at a state with no main window. -/
theorem tray_click_shows_focuses_other_ignored_witness :
    sampleVisible.main.isSome = true ∧
    TrayIconEvent.Enter.isClick = false ∧
    (on_tray_icon_event sampleVisible
        (TrayIconEvent.Click MouseButton.Left MouseButtonState.Up)
        = [Action.showWindow, Action.setFocus] ∧
      on_tray_icon_event sampleNoWindow TrayIconEvent.Enter = [] ∧
      handleEvent sampleNoWindow (ShellEvent.tray TrayIconEvent.Enter)
        = sampleNoWindow) :=
  ⟨rfl, rfl, tray_click_shows_focuses_other_ignored sampleVisible
    sampleNoWindow MouseButton.Left MouseButtonState.Up TrayIconEvent.Enter
    rfl rfl⟩

/-- Claim C8: for every close request processed while the `quitting`
flag is true, the guard performs no suppression — `prevent_close` is
not called and the default close action (window destruction)
proceeds. -/
theorem close_request_quitting_true_no_suppression (s : ShellState)
    (h : s.state.quitting = true) :
    on_window_event s.state.quitting WindowEvent.CloseRequested = [] ∧
    (on_window_event s.state.quitting
        WindowEvent.CloseRequested).contains Action.preventClose
      = false ∧
    (handleEvent s (ShellEvent.window WindowEvent.CloseRequested)).main
      = none := by
  refine ⟨by simp only [h]; rfl, by simp only [h]; rfl, ?_⟩
  show (processWindowEvent s WindowEvent.CloseRequested).main = none
  rw [close_step_quitting s h]

/-- Witness for C8 at a concrete state with the flag set. -/
theorem close_request_quitting_true_no_suppression_witness :
    sampleQuitting.state.quitting = true ∧
    (on_window_event sampleQuitting.state.quitting
        WindowEvent.CloseRequested = [] ∧
      (on_window_event sampleQuitting.state.quitting
          WindowEvent.CloseRequested).contains Action.preventClose
        = false ∧
      (handleEvent sampleQuitting
          (ShellEvent.window WindowEvent.CloseRequested)).main = none) :=
  ⟨rfl, close_request_quitting_true_no_suppression sampleQuitting rfl⟩

/-- Claim C9: the `quit` menu branch is the only operation that writes
the `quitting` flag — every other menu dispatch, every tray-icon event,
and every window event leaves the flag's value unchanged. -/
theorem only_quit_writes_quitting (s : ShellState) (id : String)
    (te : TrayIconEvent) (we : WindowEvent) (h : id ≠ "quit") :
    (handleEvent s (ShellEvent.menu id)).state.quitting
      = s.state.quitting ∧
    (handleEvent s (ShellEvent.tray te)).state.quitting
      = s.state.quitting ∧
    (handleEvent s (ShellEvent.window we)).state.quitting
      = s.state.quitting :=
  ⟨menu_quitting_eq s id h, tray_quitting_eq s te,
    window_quitting_eq s we⟩

/-- Witness for C9 with the `open` menu id, a tray `Leave` event, and a
close request. -/
theorem only_quit_writes_quitting_witness :
    ("open" : String) ≠ "quit" ∧
    ((handleEvent sampleVisible (ShellEvent.menu "open")).state.quitting
        = sampleVisible.state.quitting ∧
      (handleEvent sampleVisible
          (ShellEvent.tray TrayIconEvent.Leave)).state.quitting
        = sampleVisible.state.quitting ∧
      (handleEvent sampleVisible
          (ShellEvent.window WindowEvent.CloseRequested)).state.quitting
        = sampleVisible.state.quitting) :=
  ⟨by decide, only_quit_writes_quitting sampleVisible "open"
    TrayIconEvent.Leave WindowEvent.CloseRequested (by decide)⟩

/-- Claim C10: for every menu event whose identifier is none of `open`,
`add_habit`, or `quit`, the menu-event handler is a complete no-op: it
performs no effect and leaves the state unchanged. -/
theorem unknown_menu_id_noop (s : ShellState) (id : String)
    (h1 : id ≠ "open") (h2 : id ≠ "add_habit") (h3 : id ≠ "quit") :
    on_menu_event s id = [] ∧
    handleEvent s (ShellEvent.menu id) = s := by
  have htr : on_menu_event s id = [] := by
    unfold on_menu_event
    rw [if_neg h1, if_neg h2, if_neg h3]
  exact ⟨htr, by simp only [handleEvent, htr, runTrace, List.foldl_nil]⟩

/-- Witness for C10 at the unknown menu id `settings`. -/
theorem unknown_menu_id_noop_witness :
    ("settings" : String) ≠ "open" ∧
    ("settings" : String) ≠ "add_habit" ∧
    ("settings" : String) ≠ "quit" ∧
    (on_menu_event sampleVisible "settings" = [] ∧
      handleEvent sampleVisible (ShellEvent.menu "settings")
        = sampleVisible) :=
  ⟨by decide, by decide, by decide,
    unknown_menu_id_noop sampleVisible "settings" (by decide) (by decide)
      (by decide)⟩

end HabitTracker
